import Mathlib

/-- Shallow embedding of the voice-guardian-server transcription relay
(src/index.ts).  Pure helpers are Lean functions; the stateful request
handler is a function from an explicit environment (token, file system,
upstream collaborator) to a result record that also carries the
observable trace (number of outbound calls, number of unlink attempts).
All definitions are translated from the TypeScript source. -/
def voiceGuardianDevelopment : String := "voice-guardian-server"

namespace VoiceGuardian

/-! JavaScript string helpers.  A JS string is falsy exactly when it is
empty; `a || b` yields `b` when `a` is undefined or falsy. -/

-- `opt || b` where `opt : string | undefined` and `""` is falsy.
def jsOrOpt (opt : Option String) (b : String) : String :=
  match opt with
  | some s => if s == "" then b else s
  | none => b

-- Truthiness of a `string | undefined` value.
def jsTruthyOptStr : Option String → Bool
  | none => false
  | some s => s != ""

/-! JavaScript property access on a plain object literal.  `o[k]` does
not stop at the object's own entries: when `k` is absent it walks the
prototype chain, and for an object literal that chain is
`Object.prototype`, whose members (toString, constructor, valueOf,
`__proto__`, ...) are functions or objects and therefore all truthy.
Only a key found in neither place yields `undefined`. -/

inductive JsValue where
  -- an own entry of the object literal (a string in these tables)
  | str (s : String)
  -- a member inherited from Object.prototype (truthy, not a string)
  | inherited (name : String)
  -- no own entry and no inherited member
  | undef
deriving DecidableEq

-- The property names of Object.prototype (ES2023).
def OBJECT_PROTOTYPE_KEYS : List String :=
  ["constructor", "hasOwnProperty", "isPrototypeOf", "propertyIsEnumerable",
   "toLocaleString", "toString", "valueOf", "__proto__",
   "__defineGetter__", "__defineSetter__", "__lookupGetter__", "__lookupSetter__"]

-- `own[k]` for a string-valued object literal `own`.
def jsGetProp (own : List (String × String)) (k : String) : JsValue :=
  match (own.find? (fun p => p.1 == k)).map Prod.snd with
  | some v => JsValue.str v
  | none =>
    if OBJECT_PROTOTYPE_KEYS.contains k then JsValue.inherited k else JsValue.undef

def jsTruthyVal : JsValue → Bool
  | .str s => s != ""
  | .inherited _ => true
  | .undef => false

-- `a || b` on property-access results.
def jsOrVal (a b : JsValue) : JsValue :=
  if jsTruthyVal a then a else b

-- Template-literal coercion of a property-access result, as used when
-- the value is interpolated into the request URL (V8 prints an
-- inherited function as its native-code source form and the
-- `__proto__` accessor result, an object, as [object Object]).
def jsValToStr : JsValue → String
  | .str s => s
  | .inherited n =>
    if n == "__proto__" then "[object Object]"
    else "function " ++ n ++ "() \x7b [native code] \x7d"
  | .undef => "undefined"

-- ASCII lowercasing, as performed by `String.prototype.toLowerCase` on
-- the characters that can influence the extension switch below (no
-- non-ASCII character lowercases to any character of the matched
-- extensions, so ASCII-only lowering is observationally faithful here).
def lowerChar (c : Char) : Char :=
  if 'A' ≤ c && c ≤ 'Z' then Char.ofNat (c.toNat + 32) else c

def lowerStr (s : String) : String :=
  String.mk (s.data.map lowerChar)

-- `pat` is a prefix of `cs` (structural, kernel-reducible).
def listHasPfx : List Char → List Char → Bool
  | [], _ => true
  | _ :: _, [] => false
  | p :: ps, c :: cs => (p == c) && listHasPfx ps cs

def strHasPfx (pat s : String) : Bool :=
  listHasPfx pat.data s.data

def strHasSfx (pat s : String) : Bool :=
  listHasPfx pat.data.reverse s.data.reverse

/-! Node `path.extname`.  It strips trailing slashes, takes the part of
the path after the last slash (the basename), and returns the suffix
starting at the basename's last dot — except that it returns the empty
string when the basename has no dot, when the last dot is the
basename's first character (dotfiles such as `.bashrc`), and for the
exact basename `..`. -/

def dropTrailingSlashes (cs : List Char) : List Char :=
  (cs.reverse.dropWhile (fun c => c == '/')).reverse

def basenamePart (cs : List Char) : List Char :=
  ((dropTrailingSlashes cs).reverse.takeWhile (fun c => c != '/')).reverse

def extnameOfBase (b : List Char) : List Char :=
  let tailFromLastDot := '.' :: (b.reverse.takeWhile (fun c => c != '.')).reverse
  if b.all (fun c => c != '.') then []
  else if b.length - tailFromLastDot.length == 0 then []
  else if b == ['.', '.'] then []
  else tailFromLastDot

def extname (s : String) : String :=
  String.mk (extnameOfBase (basenamePart s.data))

/-! Data model: the multer file object and the fixed configuration
tables from src/index.ts. -/

structure MulterFile where
  fieldname : String
  originalname : String
  mimetype : String
  size : Nat
  path : String
deriving DecidableEq

-- const HF_MODELS = { 'whisper-large': ..., 'whisper-large-turbo': ... }
-- (association list in the object's insertion order, as used by
-- `Object.keys`).
def HF_MODELS : List (String × String) :=
  [("whisper-large", "openai/whisper-large-v3"),
   ("whisper-large-turbo", "openai/whisper-large-v3-turbo")]

-- Own-entry lookup: whether `k` is a key defined in the HF_MODELS
-- literal itself (the spec's notion of a key "present in the fixed
-- mapping").  The actual property access of the code is `jsGetProp`.
def hfLookup (k : String) : Option String :=
  (HF_MODELS.find? (fun p => p.1 == k)).map Prod.snd

-- const modelKey = (req.query.model as string) || 'whisper-large';
def resolveModelKey (queryModel : Option String) : String :=
  jsOrOpt queryModel "whisper-large"

-- const modelName = HF_MODELS[modelKey] || HF_MODELS['whisper-large'];
-- Both accesses walk the prototype chain: an absent key that names an
-- Object.prototype member yields that truthy inherited member, so the
-- fallback does not fire for it.
def resolveModelName (queryModel : Option String) : JsValue :=
  jsOrVal (jsGetProp HF_MODELS (resolveModelKey queryModel))
    (jsGetProp HF_MODELS "whisper-large")

/-! Content-type resolution: function getAudioMimeType (src/index.ts). -/

def getAudioMimeType (f : MulterFile) : String :=
  if (f.mimetype != "") && (f.mimetype != "application/octet-stream") then f.mimetype
  else
    let ext := lowerStr (extname f.originalname)
    if ext == ".mp3" then "audio/mpeg"
    else if ext == ".wav" then "audio/wav"
    else if ext == ".ogg" then "audio/ogg"
    else if ext == ".m4a" then "audio/mp4"
    else if ext == ".flac" then "audio/flac"
    else "audio/wav"

/-! Upload intake: the multer fileFilter (src/index.ts). -/

-- originalname.match(/\.(mp3|wav|ogg|m4a|aac)$/i): the pattern is
-- anchored at the end and ASCII-only, so the case-insensitive match
-- succeeds exactly when the ASCII-lowercased name ends in one of the
-- five dotted extensions.
def AUDIO_EXT_SUFFIXES : List String := [".mp3", ".wav", ".ogg", ".m4a", ".aac"]

def hasAudioExt (name : String) : Bool :=
  AUDIO_EXT_SUFFIXES.any (fun e => strHasSfx e (lowerStr name))

def fileFilter (f : MulterFile) : Bool :=
  ((f.mimetype != "") && strHasPfx "audio/" f.mimetype)
  || (f.fieldname == "audio")
  || ((f.originalname != "") && hasAudioExt f.originalname)

/-! Model descriptions: function getModelDescription and the
GET /api/models handler (src/index.ts). -/

structure ModelInfo where
  key : String
  name : JsValue
  description : JsValue
deriving DecidableEq

def modelDescriptions : List (String × String) :=
  [("whisper-large", "Best accuracy, standard speed (1.5GB)"),
   ("whisper-large-turbo", "Best accuracy, faster and cheaper (newest, 1.5GB)")]

-- return descriptions[modelKey] || 'Unknown model';
-- The access walks the prototype chain, so an absent key naming an
-- Object.prototype member returns that truthy inherited member and the
-- Unknown model fallback does not fire for it.
def getModelDescription (modelKey : String) : JsValue :=
  jsOrVal (jsGetProp modelDescriptions modelKey) (JsValue.str "Unknown model")

-- Object.keys(HF_MODELS).map(key => ({ key, name: HF_MODELS[key],
-- description: getModelDescription(key) })); Object.keys yields only
-- own keys, in insertion order.
def listModels : List ModelInfo :=
  (HF_MODELS.map Prod.fst).map
    (fun key => ⟨key, jsGetProp HF_MODELS key, getModelDescription key⟩)

/-! The POST /api/transcribe pipeline (src/index.ts).  The stateful
parts (process env, fs, axios) are passed in as an explicit
environment; the handler result carries the HTTP response together
with the observable trace: how many outbound upstream calls were made
and how many times `fs.unlinkSync(tempFilePath)` was attempted. -/

-- The projection of `error.response` an axios error may carry:
-- the upstream HTTP status and the value of `data?.error` (none when
-- `data` or `data.error` is absent).
structure UpstreamResponse where
  status : Nat
  dataError : Option String
deriving DecidableEq

-- A thrown JS error as inspected by the catch block: `error.response`,
-- `error.code`, `error.message`.
structure JsError where
  response : Option UpstreamResponse
  code : Option String
  message : String
deriving DecidableEq

-- Outcome of `await axios.post(...)`: a resolved response (its `data`
-- kept as an opaque JSON string) or a thrown error.
inductive CallOutcome where
  | ok (data : String)
  | thrown (e : JsError)
deriving DecidableEq

-- The axios request the handler constructs (url, headers, limits).
structure OutboundRequest where
  url : String
  authorization : String
  contentType : String
  accept : String
  maxBodyLength : Nat
  timeoutMs : Nat
deriving DecidableEq

def mkOutboundRequest (token modelName contentType : String) : OutboundRequest :=
  { url := "https://api-inference.huggingface.co/models/" ++ modelName
  , authorization := "Bearer " ++ token
  , contentType := contentType
  , accept := "application/json"
  , maxBodyLength := 100 * 1024 * 1024
  , timeoutMs := 60000 }

-- Explicit environment: process.env.HF_API_TOKEN, fs.readFileSync,
-- axios.post, fs.unlinkSync, new Date().toISOString().
structure Env where
  hfApiToken : Option String
  readFile : String → Except JsError String
  axiosPost : OutboundRequest → String → CallOutcome
  unlink : String → Except JsError Unit
  now : String

-- The JSON error body shape { error, details, status?, retryAfter? }.
structure ApiError where
  error : String
  details : String
  statusField : Option Nat := none
  retryAfter : Option Nat := none
deriving DecidableEq

structure Metadata where
  -- metadata.model receives the raw looked-up value
  model : JsValue
  originalFilename : String
  fileSize : Nat
  mimetype : String
  processedAt : String
deriving DecidableEq

inductive ResponseBody where
  | ok (transcription : String) (meta : Metadata)
  | err (e : ApiError)
deriving DecidableEq

structure HandlerResult where
  status : Nat
  body : ResponseBody
  upstreamCalls : Nat
  unlinkAttempts : Nat

-- The catch block's error classification (src/index.ts lines 166-204):
-- first `if (error.response)`, else `if (error.code === 'ECONNABORTED')`,
-- else the generic 500.
def classifyError (e : JsError) : Nat × ApiError :=
  match e.response with
  | some r =>
    if r.status == 401 then
      (500, ⟨"Authentication failed", "Invalid HuggingFace API token", none, none⟩)
    else if r.status == 429 then
      (429, ⟨"Rate limit exceeded",
        "Too many requests to HuggingFace API. Please try again later.", none, none⟩)
    else if r.status == 503 then
      (503, ⟨"Model loading",
        "The AI model is currently loading. Please try again in a few moments.",
        none, some 20⟩)
    else
      (500, ⟨"Transcription failed", jsOrOpt r.dataError "HuggingFace API error",
        some r.status, none⟩)
  | none =>
    if e.code == some "ECONNABORTED" then
      (408, ⟨"Request timeout",
        "Transcription took too long. Please try with a shorter audio file.", none, none⟩)
    else
      (500, ⟨"Internal server error", e.message, none, none⟩)

-- The catch block: one more unlink attempt (its own failure is caught
-- and only logged), then the classified error response.
def catchBlock (calls attemptsSoFar : Nat) (e : JsError) : HandlerResult :=
  let se := classifyError e
  { status := se.1, body := .err se.2
  , upstreamCalls := calls, unlinkAttempts := attemptsSoFar + 1 }

-- The async route handler body (src/index.ts lines 87-206).
def transcribeHandler (env : Env) (reqFile : Option MulterFile)
    (queryModel : Option String) : HandlerResult :=
  match reqFile with
  | none =>
    { status := 400
    , body := .err ⟨"No audio file uploaded",
        "Please provide an audio file in the request", none, none⟩
    , upstreamCalls := 0, unlinkAttempts := 0 }
  | some file =>
    if !(jsTruthyOptStr env.hfApiToken) then
      { status := 500
      , body := .err ⟨"Server configuration error",
          "HuggingFace API token not configured", none, none⟩
      , upstreamCalls := 0, unlinkAttempts := 0 }
    else
      let token := env.hfApiToken.getD ""
      let tempFilePath := file.path
      match env.readFile tempFilePath with
      | .error e => catchBlock 0 0 e
      | .ok audioBuffer =>
        let modelName := resolveModelName queryModel
        -- the template literal stringifies modelName into the URL
        match env.axiosPost
            (mkOutboundRequest token (jsValToStr modelName) (getAudioMimeType file))
            audioBuffer with
        | .thrown e => catchBlock 1 0 e
        | .ok data =>
          -- fs.unlinkSync(tempFilePath) on the success path sits inside
          -- the try block, so its failure lands in the catch block.
          match env.unlink tempFilePath with
          | .error e => catchBlock 1 1 e
          | .ok _ =>
            { status := 200
            , body := .ok data
                ⟨modelName, file.originalname, file.size, file.mimetype, env.now⟩
            , upstreamCalls := 1, unlinkAttempts := 1 }

/-! The surrounding middleware: multer upload.single('audio') and the
error-handling middleware (src/index.ts lines 228-244). -/

inductive MiddlewareError where
  | multer (code : String) (message : String)
  | generic (message : String)
deriving DecidableEq

def errorMiddleware : MiddlewareError → Nat × ApiError
  | .multer code msg =>
    if code == "LIMIT_FILE_SIZE" then
      (413, ⟨"File too large", "Audio file must be smaller than 100MB", none, none⟩)
    else
      (500, ⟨"Internal server error", msg, none, none⟩)
  | .generic msg => (500, ⟨"Internal server error", msg, none, none⟩)

def mwResult (p : Nat × ApiError) : HandlerResult :=
  { status := p.1, body := .err p.2, upstreamCalls := 0, unlinkAttempts := 0 }

-- upload.single('audio') composed with the route handler.  Multer
-- rejects a file under any other field name with a
-- LIMIT_UNEXPECTED_FILE MulterError before consulting the configured
-- fileFilter; a filter rejection forwards the filter's plain Error to
-- the error middleware; the 100MB size limit aborts the accepted
-- stream with a LIMIT_FILE_SIZE MulterError.
def transcribeRoute (env : Env) (upload1 : Option MulterFile)
    (queryModel : Option String) : HandlerResult :=
  match upload1 with
  | none => transcribeHandler env none queryModel
  | some f =>
    if f.fieldname != "audio" then
      mwResult (errorMiddleware (.multer "LIMIT_UNEXPECTED_FILE" "Unexpected field"))
    else if !(fileFilter f) then
      mwResult (errorMiddleware (.generic "Only audio files are allowed"))
    else if f.size > 100 * 1024 * 1024 then
      mwResult (errorMiddleware (.multer "LIMIT_FILE_SIZE" "File too large"))
    else
      transcribeHandler env (some f) queryModel

-- The same pipeline with the fileFilter gate removed: used to show the
-- filter never influences the public interface (claim C9).
def transcribeRouteNoFilterGate (env : Env) (upload1 : Option MulterFile)
    (queryModel : Option String) : HandlerResult :=
  match upload1 with
  | none => transcribeHandler env none queryModel
  | some f =>
    if f.fieldname != "audio" then
      mwResult (errorMiddleware (.multer "LIMIT_UNEXPECTED_FILE" "Unexpected field"))
    else if f.size > 100 * 1024 * 1024 then
      mwResult (errorMiddleware (.multer "LIMIT_FILE_SIZE" "File too large"))
    else
      transcribeHandler env (some f) queryModel

/-! Concrete inputs for witnesses and counterexamples. -/

def sampleAudioFile : MulterFile :=
  ⟨"audio", "clip.wav", "audio/wav", 4, "/tmp/upload-1"⟩

def sampleTextFile : MulterFile :=
  ⟨"document", "notes.txt", "text/plain", 3, "/tmp/upload-2"⟩

def envOk : Env :=
  { hfApiToken := some "hf_testtoken"
  , readFile := fun _ => Except.ok "audio-bytes"
  , axiosPost := fun _ _ => CallOutcome.ok "transcription-json"
  , unlink := fun _ => Except.ok ()
  , now := "2026-01-01T00:00:00.000Z" }

def envNoToken : Env :=
  { envOk with hfApiToken := none }

def envUnlinkFails : Env :=
  { envOk with unlink := fun _ => Except.error ⟨none, some "ENOENT", "unlink failed"⟩ }

/-! Small facts used by several theorems below. -/

theorem strHasPfx_audio_empty : strHasPfx "audio/" "" = false := rfl

theorem hasAudioExt_empty : hasAudioExt "" = false := rfl

end VoiceGuardian

namespace VoiceGuardian

/-- C1 (code bug): the missing-credential branch of POST /api/transcribe
returns the 500 configuration error without a single unlink attempt on
the materialized temp file, and a deletion failure on the success path
changes the response from a 200 success to a 500 error, contradicting
the guaranteed-cleanup discipline the claim states. -/
theorem c1_cleanup_gaps :
    (transcribeRoute envNoToken (some sampleAudioFile) none).status = 500
    ∧ (transcribeRoute envNoToken (some sampleAudioFile) none).unlinkAttempts = 0
    ∧ (transcribeRoute envOk (some sampleAudioFile) none).status = 200
    ∧ (transcribeRoute envUnlinkFails (some sampleAudioFile) none).status = 500 :=
  ⟨rfl, rfl, rfl, rfl⟩

/-- C2: getAudioMimeType returns a non-empty, non-octet-stream declared
media type unchanged; otherwise it maps the lowercased filename
extension .mp3/.wav/.ogg/.m4a/.flac to the documented audio MIME types
and every other or missing extension to audio/wav. -/
theorem c2_content_type_resolution (f : MulterFile) :
    (f.mimetype ≠ "" → f.mimetype ≠ "application/octet-stream" →
      getAudioMimeType f = f.mimetype)
    ∧ ((f.mimetype = "" ∨ f.mimetype = "application/octet-stream") →
        (lowerStr (extname f.originalname) = ".mp3" → getAudioMimeType f = "audio/mpeg")
        ∧ (lowerStr (extname f.originalname) = ".wav" → getAudioMimeType f = "audio/wav")
        ∧ (lowerStr (extname f.originalname) = ".ogg" → getAudioMimeType f = "audio/ogg")
        ∧ (lowerStr (extname f.originalname) = ".m4a" → getAudioMimeType f = "audio/mp4")
        ∧ (lowerStr (extname f.originalname) = ".flac" → getAudioMimeType f = "audio/flac")
        ∧ (lowerStr (extname f.originalname) ∉
            ([".mp3", ".wav", ".ogg", ".m4a", ".flac"] : List String) →
          getAudioMimeType f = "audio/wav")) := by
  constructor
  · intro h1 h2
    simp [getAudioMimeType, h1, h2]
  · intro hgen
    have hcond : ((f.mimetype != "") && (f.mimetype != "application/octet-stream")) = false := by
      rcases hgen with h | h <;> simp [h]
    refine ⟨?_, ?_, ?_, ?_, ?_, ?_⟩
    · intro hx; simp [getAudioMimeType, hcond, hx]
    · intro hx; simp [getAudioMimeType, hcond, hx]
    · intro hx; simp [getAudioMimeType, hcond, hx]
    · intro hx; simp [getAudioMimeType, hcond, hx]
    · intro hx; simp [getAudioMimeType, hcond, hx]
    · intro hx
      simp at hx
      obtain ⟨h1, h2, h3, h4, h5⟩ := hx
      simp [getAudioMimeType, hcond, h1, h2, h3, h4, h5]

/-- C2 witness: a concrete octet-stream upload named song.FLAC resolves
to audio/flac, and a concrete declared audio/mpeg type passes through. -/
theorem c2_content_type_resolution_witness :
    getAudioMimeType ⟨"audio", "song.FLAC", "application/octet-stream", 9, "/tmp/f"⟩
      = "audio/flac"
    ∧ getAudioMimeType ⟨"audio", "a.wav", "audio/mpeg", 9, "/tmp/f"⟩ = "audio/mpeg" :=
  ⟨((c2_content_type_resolution
      ⟨"audio", "song.FLAC", "application/octet-stream", 9, "/tmp/f"⟩).2
      (Or.inr rfl)).2.2.2.2.1 (by decide),
   (c2_content_type_resolution ⟨"audio", "a.wav", "audio/mpeg", 9, "/tmp/f"⟩).1
      (by decide) (by decide)⟩

/-- C3 (counterexample): the key toString is absent from HF_MODELS, yet
model resolution does not return the default canonical identifier for
it: the property access finds the truthy inherited
Object.prototype.toString, so the fallback never fires. -/
theorem c3_counterexample :
    hfLookup "toString" = none
    ∧ resolveModelName (some "toString") = JsValue.inherited "toString"
    ∧ resolveModelName (some "toString") ≠ JsValue.str "openai/whisper-large-v3" :=
  ⟨rfl, rfl, by decide⟩

/-- C3 (amended): model resolution returns the mapped canonical
identifier for every key present in HF_MODELS, and the default key
whisper-large's identifier openai/whisper-large-v3 for every absent or
missing key that does not name an inherited Object.prototype member;
an absent key that does name one resolves to that inherited member
instead of the default. -/
theorem c3_model_resolution_amended :
    (∀ k id, (k, id) ∈ HF_MODELS → resolveModelName (some k) = JsValue.str id)
    ∧ (∀ k, hfLookup k = none → OBJECT_PROTOTYPE_KEYS.contains k = false →
        resolveModelName (some k) = JsValue.str "openai/whisper-large-v3")
    ∧ resolveModelName none = JsValue.str "openai/whisper-large-v3"
    ∧ (∀ k, hfLookup k = none → OBJECT_PROTOTYPE_KEYS.contains k = true →
        resolveModelName (some k) = JsValue.inherited k) := by
  refine ⟨?_, ?_, rfl, ?_⟩
  · intro k id h
    simp [HF_MODELS] at h
    rcases h with ⟨rfl, rfl⟩ | ⟨rfl, rfl⟩ <;> rfl
  · intro k h hc
    by_cases hk : k = ""
    · subst hk; rfl
    · have hbe : (k == "") = false := by simp [hk]
      have hfind : HF_MODELS.find? (fun p => p.1 == k) = none := by
        simpa [hfLookup, Option.map_eq_none'] using h
      have hmem : ¬ k ∈ OBJECT_PROTOTYPE_KEYS := by simpa using hc
      simp [resolveModelName, resolveModelKey, jsOrOpt, hbe, jsGetProp, hfind, hmem,
        jsOrVal, jsTruthyVal]
      rfl
  · intro k h hc
    by_cases hk : k = ""
    · subst hk
      rw [show OBJECT_PROTOTYPE_KEYS.contains "" = false from rfl] at hc
      cases hc
    · have hbe : (k == "") = false := by simp [hk]
      have hfind : HF_MODELS.find? (fun p => p.1 == k) = none := by
        simpa [hfLookup, Option.map_eq_none'] using h
      have hmem : k ∈ OBJECT_PROTOTYPE_KEYS := by simpa using hc
      simp [resolveModelName, resolveModelKey, jsOrOpt, hbe, jsGetProp, hfind, hmem,
        jsOrVal, jsTruthyVal]

/-- C3 amended witness: the present key whisper-large-turbo resolves to
its identifier, the plainly absent key whisper-tiny resolves to the
default, and the absent prototype-member name valueOf resolves to the
inherited member. -/
theorem c3_model_resolution_amended_witness :
    resolveModelName (some "whisper-large-turbo")
        = JsValue.str "openai/whisper-large-v3-turbo"
    ∧ resolveModelName (some "whisper-tiny") = JsValue.str "openai/whisper-large-v3"
    ∧ resolveModelName (some "valueOf") = JsValue.inherited "valueOf" :=
  ⟨c3_model_resolution_amended.1 "whisper-large-turbo" "openai/whisper-large-v3-turbo"
      (by decide),
   c3_model_resolution_amended.2.1 "whisper-tiny" (by decide) (by decide),
   c3_model_resolution_amended.2.2.2 "valueOf" (by decide) (by decide)⟩

/-- C4: upstream HTTP error classification: 401 maps to a 500
authentication-failed error, 429 to a 429 rate-limit error without a
retryAfter field, 503 to a 503 model-loading error with retryAfter 20,
and every other status to a 500 transcription-failed error carrying the
upstream detail when present and the original upstream status code. -/
theorem c4_upstream_error_classification (e : JsError) (r : UpstreamResponse)
    (h : e.response = some r) :
    (r.status = 401 → classifyError e =
      (500, ⟨"Authentication failed", "Invalid HuggingFace API token", none, none⟩))
    ∧ (r.status = 429 → classifyError e =
      (429, ⟨"Rate limit exceeded",
        "Too many requests to HuggingFace API. Please try again later.", none, none⟩))
    ∧ (r.status = 503 → classifyError e =
      (503, ⟨"Model loading",
        "The AI model is currently loading. Please try again in a few moments.",
        none, some 20⟩))
    ∧ (r.status ≠ 401 → r.status ≠ 429 → r.status ≠ 503 →
        (classifyError e).1 = 500
        ∧ (classifyError e).2.error = "Transcription failed"
        ∧ (classifyError e).2.statusField = some r.status
        ∧ (∀ d, r.dataError = some d → d ≠ "" → (classifyError e).2.details = d)
        ∧ (r.dataError = none → (classifyError e).2.details = "HuggingFace API error"))
    := by
  refine ⟨?_, ?_, ?_, ?_⟩
  · intro hs; simp [classifyError, h, hs]
  · intro hs; simp [classifyError, h, hs]
  · intro hs; simp [classifyError, h, hs]
  · intro h1 h2 h3
    simp [classifyError, h, h1, h2, h3]
    refine ⟨?_, ?_⟩
    · intro d hd hne; simp [jsOrOpt, hd, hne]
    · intro hd; simp [jsOrOpt, hd]

/-- C4 witness: a concrete 503 upstream error yields the 503
model-loading response with retryAfter 20, and a concrete 502 upstream
error without detail yields the generic 500 with the upstream status. -/
theorem c4_upstream_error_classification_witness :
    classifyError ⟨some ⟨503, none⟩, none, "Request failed with status code 503"⟩ =
      (503, ⟨"Model loading",
        "The AI model is currently loading. Please try again in a few moments.",
        none, some 20⟩)
    ∧ (classifyError ⟨some ⟨502, none⟩, none, "bad gateway"⟩).2.statusField = some 502 :=
  ⟨(c4_upstream_error_classification
      ⟨some ⟨503, none⟩, none, "Request failed with status code 503"⟩ ⟨503, none⟩ rfl).2.2.1
      rfl,
   ((c4_upstream_error_classification
      ⟨some ⟨502, none⟩, none, "bad gateway"⟩ ⟨502, none⟩ rfl).2.2.2
      (by decide) (by decide) (by decide)).2.2.1⟩

/-- C5: with no upstream response, an ECONNABORTED failure (the axios
signal for exceeding the configured timeout) maps to HTTP 408 with the
request-timeout body, and every other local failure maps to HTTP 500
with the failure message as details; the outbound request is built with
a 60000 millisecond timeout. -/
theorem c5_timeout_and_local_failures (e : JsError) (h : e.response = none) :
    (e.code = some "ECONNABORTED" → classifyError e =
      (408, ⟨"Request timeout",
        "Transcription took too long. Please try with a shorter audio file.",
        none, none⟩))
    ∧ (e.code ≠ some "ECONNABORTED" → classifyError e =
      (500, ⟨"Internal server error", e.message, none, none⟩))
    ∧ (∀ t m c, (mkOutboundRequest t m c).timeoutMs = 60000) := by
  refine ⟨?_, ?_, fun t m c => rfl⟩
  · intro hc; simp [classifyError, h, hc]
  · intro hc; simp [classifyError, h, hc]

/-- C5 witness: a concrete ECONNABORTED error yields the 408 timeout
response and a concrete file-read failure yields the 500 with its
message. -/
theorem c5_timeout_and_local_failures_witness :
    classifyError ⟨none, some "ECONNABORTED", "timeout of 60000ms exceeded"⟩ =
      (408, ⟨"Request timeout",
        "Transcription took too long. Please try with a shorter audio file.",
        none, none⟩)
    ∧ classifyError ⟨none, some "ENOENT", "no such file"⟩ =
      (500, ⟨"Internal server error", "no such file", none, none⟩) :=
  ⟨(c5_timeout_and_local_failures
      ⟨none, some "ECONNABORTED", "timeout of 60000ms exceeded"⟩ rfl).1 rfl,
   (c5_timeout_and_local_failures
      ⟨none, some "ENOENT", "no such file"⟩ rfl).2.1 (by decide)⟩

/-- C6: POST /api/transcribe with no uploaded file responds exactly
HTTP 400 with the no-audio-file error body and performs no outbound
upstream call. -/
theorem c6_no_file_yields_400 (env : Env) (q : Option String) :
    transcribeRoute env none q =
      { status := 400
      , body := .err ⟨"No audio file uploaded",
          "Please provide an audio file in the request", none, none⟩
      , upstreamCalls := 0, unlinkAttempts := 0 } := rfl

/-- C7 (counterexample): a non-audio upload (field name document,
text/plain, .txt name) is rejected before the relay step, but with
HTTP 500 — a server error, not the client error the claim states. -/
theorem c7_counterexample :
    fileFilter sampleTextFile = false
    ∧ (transcribeRoute envOk (some sampleTextFile) none).status = 500
    ∧ 499 < (transcribeRoute envOk (some sampleTextFile) none).status :=
  ⟨rfl, rfl, by decide⟩

/-- C7 (amended): the intake filter accepts a file exactly when its
declared media type begins with audio/, or its field name is audio, or
its name case-insensitively ends in .mp3/.wav/.ogg/.m4a/.aac; every
file the filter rejects is turned away from POST /api/transcribe with
an HTTP 500 error and never reaches the upstream relay. -/
theorem c7_intake_amended (f : MulterFile) (env : Env) (q : Option String) :
    (fileFilter f = true ↔
      (strHasPfx "audio/" f.mimetype = true ∨ f.fieldname = "audio"
        ∨ hasAudioExt f.originalname = true))
    ∧ (fileFilter f = false →
        (transcribeRoute env (some f) q).status = 500
        ∧ (transcribeRoute env (some f) q).upstreamCalls = 0) := by
  have hiff : fileFilter f = true ↔
      (strHasPfx "audio/" f.mimetype = true ∨ f.fieldname = "audio"
        ∨ hasAudioExt f.originalname = true) := by
    constructor
    · intro hff
      simp [fileFilter] at hff
      rcases hff with (⟨_, hp⟩ | hfld) | ⟨_, hs⟩
      · exact Or.inl hp
      · exact Or.inr (Or.inl hfld)
      · exact Or.inr (Or.inr hs)
    · intro hc
      rcases hc with hp | hfld | hs
      · have hm : f.mimetype ≠ "" := by
          intro hmm
          rw [hmm, strHasPfx_audio_empty] at hp
          cases hp
        simp [fileFilter, hm, hp]
      · simp [fileFilter, hfld]
      · have hn : f.originalname ≠ "" := by
          intro hnn
          rw [hnn, hasAudioExt_empty] at hs
          cases hs
        simp [fileFilter, hn, hs]
  refine ⟨hiff, ?_⟩
  · intro hff
    have hfld : f.fieldname ≠ "audio" := by
      intro hh
      have := hiff.mpr (Or.inr (Or.inl hh))
      rw [this] at hff
      cases hff
    simp [transcribeRoute, hfld, mwResult, errorMiddleware]

/-- C7 amended witness: the concrete non-audio upload is rejected by
the filter and the pipeline answers 500 with zero upstream calls. -/
theorem c7_intake_amended_witness :
    (transcribeRoute envOk (some sampleTextFile) (some "whisper-large")).status = 500
    ∧ (transcribeRoute envOk (some sampleTextFile) (some "whisper-large")).upstreamCalls
        = 0 :=
  (c7_intake_amended sampleTextFile envOk (some "whisper-large")).2 rfl

/-- C8 (counterexample): the key toString is absent from the static
description table, yet getModelDescription does not fall back to the
Unknown model placeholder for it: the property access finds the truthy
inherited Object.prototype.toString, so the claimed exactly-for-absent-
keys fallback is false. -/
theorem c8_counterexample :
    modelDescriptions.find? (fun p => p.1 == "toString") = none
    ∧ getModelDescription "toString" = JsValue.inherited "toString"
    ∧ getModelDescription "toString" ≠ JsValue.str "Unknown model" :=
  ⟨rfl, rfl, by decide⟩

/-- C8 (amended): GET /api/models lists every HF_MODELS key exactly
once, in the map's insertion order, each entry carrying the key, its
canonical identifier and a non-empty description from the table; the
description lookup yields the literal Unknown model exactly for keys
that are absent from the description table and do not name an
inherited Object.prototype member (for absent keys that do, the
inherited member is returned instead). -/
theorem c8_models_listing_amended :
    listModels =
      [⟨"whisper-large", JsValue.str "openai/whisper-large-v3",
        JsValue.str "Best accuracy, standard speed (1.5GB)"⟩,
       ⟨"whisper-large-turbo", JsValue.str "openai/whisper-large-v3-turbo",
        JsValue.str "Best accuracy, faster and cheaper (newest, 1.5GB)"⟩]
    ∧ listModels.map ModelInfo.key = HF_MODELS.map Prod.fst
    ∧ (∀ mi ∈ listModels,
        (∃ s, mi.name = JsValue.str s ∧ (mi.key, s) ∈ HF_MODELS)
        ∧ ∃ s, mi.description = JsValue.str s ∧ s ≠ "")
    ∧ (∀ k, getModelDescription k = JsValue.str "Unknown model" ↔
        (modelDescriptions.find? (fun p => p.1 == k) = none
          ∧ OBJECT_PROTOTYPE_KEYS.contains k = false)) := by
  refine ⟨by decide, by decide, ?_, ?_⟩
  · have hlist : listModels =
        [⟨"whisper-large", JsValue.str "openai/whisper-large-v3",
          JsValue.str "Best accuracy, standard speed (1.5GB)"⟩,
         ⟨"whisper-large-turbo", JsValue.str "openai/whisper-large-v3-turbo",
          JsValue.str "Best accuracy, faster and cheaper (newest, 1.5GB)"⟩] := by decide
    intro mi hmi
    rw [hlist] at hmi
    simp at hmi
    rcases hmi with rfl | rfl
    · exact ⟨⟨"openai/whisper-large-v3", rfl, by decide⟩,
        "Best accuracy, standard speed (1.5GB)", rfl, by decide⟩
    · exact ⟨⟨"openai/whisper-large-v3-turbo", rfl, by decide⟩,
        "Best accuracy, faster and cheaper (newest, 1.5GB)", rfl, by decide⟩
  · intro k
    cases hf : modelDescriptions.find? (fun p => p.1 == k) with
    | none =>
      cases hc : OBJECT_PROTOTYPE_KEYS.contains k with
      | false =>
        have hmem : ¬ k ∈ OBJECT_PROTOTYPE_KEYS := by simpa using hc
        simp [getModelDescription, jsGetProp, hf, hc, hmem, jsOrVal, jsTruthyVal]
      | true =>
        have hmem : k ∈ OBJECT_PROTOTYPE_KEYS := by simpa using hc
        simp [getModelDescription, jsGetProp, hf, hc, hmem, jsOrVal, jsTruthyVal]
    | some p =>
      have hp : p ∈ modelDescriptions := List.mem_of_find?_eq_some hf
      simp [modelDescriptions] at hp
      rcases hp with rfl | rfl <;>
        simp [getModelDescription, jsGetProp, hf, jsOrVal, jsTruthyVal]

/-- C8 amended witness: the plainly absent key whisper-tiny falls back
to the Unknown model placeholder. -/
theorem c8_models_listing_amended_witness :
    getModelDescription "whisper-tiny" = JsValue.str "Unknown model" :=
  (c8_models_listing_amended.2.2.2 "whisper-tiny").mpr ⟨by decide, by decide⟩

/-- C9: a file under field name audio always passes the intake filter
whatever its media type and name, and the whole /api/transcribe
pipeline is observationally unchanged when the filter gate is removed,
so the media-type and extension restrictions never cause a rejection at
the public interface. -/
theorem c9_filter_never_rejects (f : MulterFile) (env : Env)
    (u : Option MulterFile) (q : Option String) :
    (f.fieldname = "audio" → fileFilter f = true)
    ∧ transcribeRoute env u q = transcribeRouteNoFilterGate env u q := by
  constructor
  · intro h
    simp [fileFilter, h]
  · cases u with
    | none => rfl
    | some g =>
      by_cases hg : g.fieldname = "audio"
      · have hff : fileFilter g = true := by simp [fileFilter, hg]
        simp [transcribeRoute, transcribeRouteNoFilterGate, hg, hff]
      · simp [transcribeRoute, transcribeRouteNoFilterGate, hg]

/-- C9 witness: the concrete audio-field text file passes the filter
and the gated and ungated pipelines agree on a concrete request. -/
theorem c9_filter_never_rejects_witness :
    fileFilter ⟨"audio", "notes.txt", "text/plain", 3, "/tmp/u"⟩ = true
    ∧ transcribeRoute envOk (some sampleAudioFile) (some "whisper-large-turbo")
        = transcribeRouteNoFilterGate envOk (some sampleAudioFile)
            (some "whisper-large-turbo") :=
  ⟨(c9_filter_never_rejects ⟨"audio", "notes.txt", "text/plain", 3, "/tmp/u"⟩
      envOk none none).1 rfl,
   (c9_filter_never_rejects sampleAudioFile envOk (some sampleAudioFile)
      (some "whisper-large-turbo")).2⟩

/-- C10: an empty or absent model query parameter resolves to the
default key whisper-large and the default canonical identifier; the
empty string itself is never the key looked up in the mapping. -/
theorem c10_empty_model_key :
    resolveModelKey (some "") = "whisper-large"
    ∧ resolveModelKey none = "whisper-large"
    ∧ resolveModelName (some "") = resolveModelName none
    ∧ resolveModelName none = JsValue.str "openai/whisper-large-v3" :=
  ⟨rfl, rfl, rfl, rfl⟩

end VoiceGuardian
